import Mathlib

/-!
Shallow embedding of `negative_news_scrubber_app.py` (Negative News Scrubber):
the negative-keyword configuration, the query builder, the per-entity search
wrapper, the row flattening and the main run loop, together with the input
parsing done by the run surface.  Machine-level details (Streamlit widgets,
pandas rendering, CSV export) are out of scope, as in the specification.
-/

namespace NegNews

/-! ### Python string primitives used by the app -/

/-- Whitespace characters removed by Python `str.strip()` with no argument:
the ASCII whitespace characters plus the Unicode space and separator
characters that can also act as line boundaries. -/
def pyIsSpace (c : Char) : Bool :=
  c = ' ' || c = '\t' || c = '\n' || c = '\r' || c = '\x0B' || c = '\x0C' ||
  c = '\x1C' || c = '\x1D' || c = '\x1E' || c = '\x85' || c = '\u00A0' ||
  c = '\u2028' || c = '\u2029'

/-- Python `str.strip()`: drop leading and trailing whitespace. -/
def pyStrip (s : String) : String :=
  String.mk (((s.data.dropWhile pyIsSpace).reverse.dropWhile pyIsSpace).reverse)

/-- Line-boundary characters recognised by Python `str.splitlines()`. -/
def isLineBreak (c : Char) : Bool :=
  c = '\n' || c = '\r' || c = '\x0B' || c = '\x0C' ||
  c = '\x1C' || c = '\x1D' || c = '\x1E' || c = '\x85' ||
  c = '\u2028' || c = '\u2029'

/-- Worker for `pySplitlines`; `acc` holds the current line, reversed. -/
def pySplitlinesAux : List Char → List Char → List String
  | [], [] => []
  | [], acc => [String.mk acc.reverse]
  | '\r' :: '\n' :: rest, acc => String.mk acc.reverse :: pySplitlinesAux rest []
  | c :: rest, acc =>
    if isLineBreak c then String.mk acc.reverse :: pySplitlinesAux rest []
    else pySplitlinesAux rest (c :: acc)

/-- Python `str.splitlines()`: split at line boundaries, treating a CRLF pair
as one boundary and producing no trailing empty line for a trailing break. -/
def pySplitlines (s : String) : List String :=
  pySplitlinesAux s.data []

/-! ### Configuration (source lines 25-48) -/

/-- DEFAULT_NEGATIVE_KEYWORDS exactly as the Python list literal evaluates:
the commas missing after "penalty", "closed", "shut down", "out of business"
and "stole" make Python concatenate those adjacent string literals into a
single list entry. -/
def DEFAULT_NEGATIVE_KEYWORDS : List String := [
  "scam",
  "complaint",
  "lawsuit",
  "fraud",
  "fraudulent",
  "bankruptcy",
  "chapter 11",
  "ripoff",
  "bad review",
  "negative review",
  "bbb f rating",
  "court filing",
  "fine",
  "penalty" ++ "closed" ++ "shut down" ++ "out of business" ++ "stole" ++ "not answering"
]

/-- RESULTS_PER_QUERY (source line 47). -/
def RESULTS_PER_QUERY : Nat := 25

/-- DATE_RANGE_DAYS (source line 48). -/
def DATE_RANGE_DAYS : Nat := 365 * 3

/-! ### Date handling

`search_entity` computes `datetime.utcnow() - timedelta(days=lookback_years *
365)` and renders it with `strftime("%Y-%m-%d")`.  Subtracting a whole number
of days shifts the calendar date by exactly that number of days, so the
computation is embedded at day granularity: the current instant is a day
count since 1970-01-01 and the rendering converts a day count to a civil
date. -/

/-- Convert a day count since 1970-01-01 to the proleptic-Gregorian
(year, month, day) triple, by the standard civil-from-days algorithm. -/
def civilFromDays (z : Nat) : Nat × Nat × Nat :=
  let days := z + 719468
  let era := days / 146097
  let doe := days % 146097
  let yoe := (doe - doe / 1460 + doe / 36524 - doe / 146097) / 365
  let y := yoe + era * 400
  let doy := doe - (365 * yoe + yoe / 4 - yoe / 100)
  let mp := (5 * doy + 2) / 153
  let d := doy - (153 * mp + 2) / 5 + 1
  let m := if mp < 10 then mp + 3 else mp - 9
  (if m ≤ 2 then y + 1 else y, m, d)

/-- Zero-pad a numeral to two digits (strftime "%m" and "%d"). -/
def pad2 (n : Nat) : String :=
  if n < 10 then "0" ++ toString n else toString n

/-- Zero-pad a numeral to four digits (strftime "%Y"). -/
def pad4 (n : Nat) : String :=
  if n < 10 then "000" ++ toString n
  else if n < 100 then "00" ++ toString n
  else if n < 1000 then "0" ++ toString n
  else toString n

/-- Render a day count since 1970-01-01 as strftime("%Y-%m-%d") does. -/
def fmtYMD (z : Nat) : String :=
  let c := civilFromDays z
  pad4 c.1 ++ "-" ++ pad2 c.2.1 ++ "-" ++ pad2 c.2.2

/-! ### Article Records and Result Rows -/

/-- Value found under the "source" key of an Article Record returned by the
API: the key may be absent, bound to JSON null, or bound to an object with
an optional "name" field. -/
inductive SourceVal
  | absent
  | null
  | obj (name : Option String)
  deriving DecidableEq

/-- Value found under the "publishedAt" key of an Article Record: the key may
be absent, bound to JSON null, or bound to a string. -/
inductive PubVal
  | absent
  | null
  | str (s : String)
  deriving DecidableEq

/-- An Article Record as consumed by the row flattening.  For "title" and
"url" the code reads `art.get(key)`, under which an absent key and a null
value are indistinguishable, so one `Option` models both; "source" and
"publishedAt" need the three-way split above. -/
structure Article where
  title : Option String
  source : SourceVal
  publishedAt : PubVal
  url : Option String
  deriving DecidableEq

/-- One flattened Result Row: the dict appended to `aggregated_rows`
(source lines 127-135). -/
structure Row where
  entity : String
  title : Option String
  source : Option String
  published : Option String
  url : Option String
  deriving DecidableEq

/-! ### Query builder and search wrapper -/

/-- build_query (source lines 81-84): quote the entity and OR-join the
keywords. -/
def build_query (entity : String) (keywords : List String) : String :=
  let kws := String.intercalate " OR " keywords
  "\"" ++ entity ++ "\" AND (" ++ kws ++ ")"

/-- The keyword arguments of the `client.get_everything` call
(source lines 92-98). -/
structure Request where
  q : String
  from_param : String
  language : String
  sort_by : String
  page_size : Nat
  deriving DecidableEq

/-- Run-scoped values read by `search_entity`: the slider and number-input
values, and the current instant expressed in days since 1970-01-01. -/
structure Params where
  lookback_years : Nat
  results_limit : Nat
  now_days : Nat
  deriving DecidableEq

/-- The request `search_entity` passes to `client.get_everything`
(source lines 92-98). -/
def searchRequest (entity : String) (keywords : List String) (p : Params) : Request :=
  { q := build_query entity keywords
    from_param := fmtYMD (p.now_days - p.lookback_years * 365)
    language := "en"
    sort_by := "relevancy"
    page_size := min p.results_limit 100 }

/-- search_entity (source lines 87-102).  The search capability is injected:
it returns the "articles" list or raises (`Except.error` carries the
exception text).  On success the articles come back with no error report; on
an exception the wrapper reports the `st.error` message and returns no
articles. -/
def search_entity (entity : String) (search : Request → Except String (List Article))
    (keywords : List String) (p : Params) : List Article × List String :=
  match search (searchRequest entity keywords p) with
  | .ok arts => (arts, [])
  | .error exc => ([], ["Error querying NewsAPI for " ++ entity ++ ": " ++ exc])

/-! ### Row flattening (source lines 126-135) -/

/-- Evaluate `art.get("source", default empty dict).get("name")`: the default
applies only when the "source" key is absent; a null value makes the second
`.get` raise AttributeError. -/
def getSourceName : SourceVal → Except String (Option String)
  | .absent => .ok none
  | .null => .error "AttributeError"
  | .obj name => .ok name

/-- Evaluate the Published field: `art.get("publishedAt")` sliced to its
first 10 characters if truthy (a non-empty string), else None. -/
def publishedField : PubVal → Option String
  | .str s => if s = "" then none else some (s.take 10)
  | _ => none

/-- Build one Result Row from an Article Record (source lines 127-135);
raises exactly when the "source" key is bound to null. -/
def flattenArticle (entity : String) (art : Article) : Except String Row :=
  match getSourceName art.source with
  | .error e => .error e
  | .ok src =>
    .ok { entity := entity
          title := art.title
          source := src
          published := publishedField art.publishedAt
          url := art.url }

/-- The Row `flattenArticle` produces whenever it does not raise. -/
def flattenRow (entity : String) (art : Article) : Row :=
  { entity := entity
    title := art.title
    source := match art.source with | .obj n => n | _ => none
    published := publishedField art.publishedAt
    url := art.url }

/-- Flatten one entity's Article Records in response order, propagating an
exception (the inner for-loop of source lines 126-135). -/
def flattenAll (entity : String) : List Article → Except String (List Row)
  | [] => .ok []
  | a :: rest =>
    match flattenArticle entity a with
    | .error e => .error e
    | .ok r =>
      match flattenAll entity rest with
      | .error e => .error e
      | .ok rs => .ok (r :: rs)

/-! ### The main run loop and the run surface (source lines 108-136) -/

/-- Why a run aborts: one of the two input guards (source lines 109-114), or
an exception escaping the flattening loop uncaught. -/
inductive RunError
  | emptyApiKey
  | emptyEntityList
  | uncaught (msg : String)
  deriving DecidableEq

/-- The main loop (source lines 123-136): one `search_entity` call per entity
in input order, flattening each result batch onto the accumulated rows.
Returns the outcome — the aggregated rows and the error-report log, or the
uncaught exception — together with the trace of `get_everything` requests
actually issued. -/
def runLoop (search : Request → Except String (List Article))
    (keywords : List String) (p : Params) :
    List String → Except String (List Row × List String) × List Request
  | [] => (.ok ([], []), [])
  | e :: rest =>
    match flattenAll e (search_entity e search keywords p).1 with
    | .error m => (.error m, [searchRequest e keywords p])
    | .ok rows =>
      match runLoop search keywords p rest with
      | (.error m, calls) => (.error m, searchRequest e keywords p :: calls)
      | (.ok (rows2, log2), calls) =>
        (.ok (rows ++ rows2, (search_entity e search keywords p).2 ++ log2),
         searchRequest e keywords p :: calls)

/-- Custom keywords (source line 116): split the free-text field on commas,
strip each piece, drop the blank ones. -/
def parseCustomKeywords (custom_kw : String) : List String :=
  ((custom_kw.splitOn ",").filter (fun kw => pyStrip kw ≠ "")).map pyStrip

/-- The keyword list used for a run (source line 116): the built-in list
followed by the surviving custom keywords. -/
def negKeywords (custom_kw : String) : List String :=
  DEFAULT_NEGATIVE_KEYWORDS ++ parseCustomKeywords custom_kw

/-- Entities (source line 117): one per line of the free-text field,
stripped, blank lines dropped, duplicates preserved. -/
def parseEntities (names_input : String) : List String :=
  ((pySplitlines names_input).filter (fun n => pyStrip n ≠ "")).map pyStrip

/-- The whole run surface (source lines 108-136): the two input guards, then
keyword and entity parsing, then the main loop. -/
def runSearch (api_key names_input custom_kw : String) (p : Params)
    (search : Request → Except String (List Article)) :
    Except RunError (List Row × List String) × List Request :=
  if api_key = "" then (.error .emptyApiKey, [])
  else if pyStrip names_input = "" then (.error .emptyEntityList, [])
  else
    match runLoop search (negKeywords custom_kw) p (parseEntities names_input) with
    | (.error m, calls) => (.error (.uncaught m), calls)
    | (.ok out, calls) => (.ok out, calls)

/-! ### Concrete fixtures used to exercise the theorems on closed inputs -/

/-- Concrete run parameters: three years of lookback, 25 results, with "now"
being day 20000 after the epoch (2024-10-04). -/
def wParams : Params := { lookback_years := 3, results_limit := 25, now_days := 20000 }

/-- The Article Record of the concrete scenario in the specification. -/
def wArticle : Article :=
  { title := some "Acme sued for fraud"
    source := SourceVal.obj (some "Daily News")
    publishedAt := PubVal.str "2024-03-01T12:00:00Z"
    url := some "http://example.com/1" }

/-- An Article Record whose "source" key is bound to null. -/
def wNullSourceArticle : Article :=
  { title := some "t", source := SourceVal.null, publishedAt := PubVal.absent, url := none }

/-- The Result Row the flattening produces from `wArticle` for entity
"e". -/
def wRow : Row :=
  { entity := "e", title := some "Acme sued for fraud",
    source := some "Daily News", published := some "2024-03-01",
    url := some "http://example.com/1" }

/-- A search capability that succeeds with no articles for every request. -/
def wSearchEmpty : Request → Except String (List Article) := fun _ => Except.ok []

/-- A search capability that raises for the entity "bad" (recognisable by its
query) and returns one article for everyone else. -/
def wSearchMixed : Request → Except String (List Article) := fun req =>
  if req.q = build_query "bad" ["kw"] then Except.error "boom" else Except.ok [wArticle]

/-- A search capability that returns one article for the entity "a@x.com"
(recognisable by its query) and zero articles for everyone else. -/
def wSearchOneThenNone : Request → Except String (List Article) := fun req =>
  if req.q = build_query "a@x.com" ["kw"] then Except.ok [wArticle] else Except.ok []

/-- A search capability that returns one null-source article for every
request. -/
def wSearchNull : Request → Except String (List Article) := fun _ =>
  Except.ok [wNullSourceArticle]

/-! ### General lemmas about the embedded operations -/

/-- String.intercalate on a non-empty list is the left fold interleaving the
separator. -/
theorem intercalate_go_eq (sep : String) (ks : List String) :
    ∀ acc : String, String.intercalate.go acc sep ks =
      ks.foldl (fun a b => a ++ sep ++ b) acc := by
  induction ks with
  | nil => intro acc; rfl
  | cons k2 ks ih => intro acc; exact ih (acc ++ sep ++ k2)

/-- String.intercalate on a cons is a left fold from the head. -/
theorem intercalate_eq_foldl (sep k : String) (ks : List String) :
    String.intercalate sep (k :: ks) = ks.foldl (fun a b => a ++ sep ++ b) k :=
  intercalate_go_eq sep ks k

/-- String length as list length. -/
theorem strLength_data (s : String) : s.length = s.data.length := rfl

/-- Taking 10 characters of a string of length at least 10 yields exactly
10 characters. -/
theorem strTake_length_ten (s : String) (h : 10 ≤ s.length) :
    (s.take 10).length = 10 := by
  rw [strLength_data] at h
  rw [strLength_data, String.data_take, List.length_take]
  omega

/-- Flattening an article whose "source" key is not bound to null succeeds
and produces the total projection `flattenRow`. -/
theorem flattenArticle_ok (entity : String) (a : Article)
    (h : a.source ≠ SourceVal.null) :
    flattenArticle entity a = Except.ok (flattenRow entity a) := by
  cases hs : a.source with
  | absent => simp [flattenArticle, getSourceName, flattenRow, hs]
  | null => exact absurd hs h
  | obj n => simp [flattenArticle, getSourceName, flattenRow, hs]

/-- Flattening an article whose "source" key is bound to null raises. -/
theorem flattenArticle_null (entity : String) (a : Article)
    (h : a.source = SourceVal.null) :
    flattenArticle entity a = Except.error "AttributeError" := by
  simp [flattenArticle, getSourceName, h]

/-- Flattening a batch with no null-source article succeeds and maps
`flattenRow` over the batch in order. -/
theorem flattenAll_eq_map (entity : String) (arts : List Article)
    (h : ∀ a ∈ arts, a.source ≠ SourceVal.null) :
    flattenAll entity arts = Except.ok (arts.map (flattenRow entity)) := by
  induction arts with
  | nil => rfl
  | cons a rest ih =>
    simp [flattenAll, flattenArticle_ok entity a (h a (by simp)),
      ih (fun b hb => h b (by simp [hb]))]

/-- Flattening a batch containing a null-source article raises. -/
theorem flattenAll_error_of_null (entity : String) (arts : List Article)
    (a : Article) (ha : a ∈ arts) (hn : a.source = SourceVal.null) :
    ∃ m, flattenAll entity arts = Except.error m := by
  induction arts with
  | nil => cases ha
  | cons b rest ih =>
    by_cases hb : b.source = SourceVal.null
    · exact ⟨"AttributeError", by simp [flattenAll, flattenArticle_null entity b hb]⟩
    · rcases List.mem_cons.mp ha with h1 | h1
      · exact absurd (h1 ▸ hn) hb
      · obtain ⟨m, hm⟩ := ih h1
        exact ⟨m, by simp [flattenAll, flattenArticle_ok entity b hb, hm]⟩

/-- The entity tag of a flattened row is the entity it was flattened for. -/
theorem flattenRow_entity (entity : String) (a : Article) :
    (flattenRow entity a).entity = entity := rfl

/-- When the search raises, `search_entity` reports the entity and the error
detail and returns no articles. -/
theorem search_entity_error (entity : String)
    (search : Request → Except String (List Article)) (kws : List String)
    (p : Params) (err : String)
    (h : search (searchRequest entity kws p) = Except.error err) :
    search_entity entity search kws p =
      ([], ["Error querying NewsAPI for " ++ entity ++ ": " ++ err]) := by
  simp [search_entity, h]

/-- When the search succeeds, `search_entity` passes the articles through and
reports nothing. -/
theorem search_entity_ok (entity : String)
    (search : Request → Except String (List Article)) (kws : List String)
    (p : Params) (arts : List Article)
    (h : search (searchRequest entity kws p) = Except.ok arts) :
    search_entity entity search kws p = (arts, []) := by
  simp [search_entity, h]

/-- Characterisation of the main loop on a run in which no returned article
binds "source" to null: it completes, the rows are the concatenation in
entity order of each entity's flattened batch, the log is the concatenation
of the per-entity failure reports, and one request is issued per entity in
order. -/
theorem runLoop_ok_eq (search : Request → Except String (List Article))
    (kws : List String) (p : Params) (es : List String)
    (h : ∀ e ∈ es, ∀ a ∈ (search_entity e search kws p).1, a.source ≠ SourceVal.null) :
    runLoop search kws p es =
      (Except.ok
        (es.flatMap (fun e => ((search_entity e search kws p).1).map (flattenRow e)),
         es.flatMap (fun e => (search_entity e search kws p).2)),
       es.map (fun e => searchRequest e kws p)) := by
  induction es with
  | nil => rfl
  | cons e rest ih =>
    have he := flattenAll_eq_map e (search_entity e search kws p).1 (h e (by simp))
    have ihr := ih (fun e2 h2 => h e2 (by simp [h2]))
    simp [runLoop, he, ihr]

/-- Unfolding of the loop on a cons whose flattening raises. -/
theorem runLoop_cons_flat_error {search : Request → Except String (List Article)}
    {kws : List String} {p : Params} {e : String} {rest : List String} {m : String}
    (hm : flattenAll e (search_entity e search kws p).1 = Except.error m) :
    runLoop search kws p (e :: rest) = (Except.error m, [searchRequest e kws p]) := by
  unfold runLoop; rw [hm]

/-- Unfolding of the loop on a cons whose flattening succeeds but whose tail
aborts. -/
theorem runLoop_cons_tail_error {search : Request → Except String (List Article)}
    {kws : List String} {p : Params} {e : String} {rest : List String}
    {rows : List Row} {m : String} {calls : List Request}
    (hm : flattenAll e (search_entity e search kws p).1 = Except.ok rows)
    (hr : runLoop search kws p rest = (Except.error m, calls)) :
    runLoop search kws p (e :: rest) =
      (Except.error m, searchRequest e kws p :: calls) := by
  unfold runLoop; rw [hm, hr]

/-- Unfolding of the loop on a cons whose flattening and tail both
complete. -/
theorem runLoop_cons_ok {search : Request → Except String (List Article)}
    {kws : List String} {p : Params} {e : String} {rest : List String}
    {rows rows2 : List Row} {log2 : List String} {calls : List Request}
    (hm : flattenAll e (search_entity e search kws p).1 = Except.ok rows)
    (hr : runLoop search kws p rest = (Except.ok (rows2, log2), calls)) :
    runLoop search kws p (e :: rest) =
      (Except.ok (rows ++ rows2, (search_entity e search kws p).2 ++ log2),
       searchRequest e kws p :: calls) := by
  unfold runLoop; rw [hm, hr]

/-- A loop that completed issued exactly one request per entity, in input
order. -/
theorem runLoop_calls_of_ok (search : Request → Except String (List Article))
    (kws : List String) (p : Params) (es : List String)
    (out : List Row × List String)
    (h : (runLoop search kws p es).1 = Except.ok out) :
    (runLoop search kws p es).2 = es.map (fun e => searchRequest e kws p) := by
  induction es generalizing out with
  | nil => rfl
  | cons e rest ih =>
    cases hf : flattenAll e (search_entity e search kws p).1 with
    | error m => rw [runLoop_cons_flat_error hf] at h; cases h
    | ok rows =>
      cases hr : runLoop search kws p rest with
      | mk r1 calls =>
        cases r1 with
        | error m => rw [runLoop_cons_tail_error hf hr] at h; cases h
        | ok o2 =>
          obtain ⟨rows2, log2⟩ := o2
          have h3 := ih (rows2, log2) (by rw [hr])
          rw [hr] at h3
          rw [runLoop_cons_ok hf hr]
          simpa using h3

/-- Every request in the issued trace belongs to some input entity and was
built by `searchRequest`. -/
theorem runLoop_calls_mem (search : Request → Except String (List Article))
    (kws : List String) (p : Params) (es : List String) (req : Request)
    (h : req ∈ (runLoop search kws p es).2) :
    ∃ e, e ∈ es ∧ req = searchRequest e kws p := by
  induction es with
  | nil => cases h
  | cons e rest ih =>
    cases hf : flattenAll e (search_entity e search kws p).1 with
    | error m =>
      rw [runLoop_cons_flat_error hf] at h
      simp at h
      exact ⟨e, by simp, h⟩
    | ok rows =>
      cases hr : runLoop search kws p rest with
      | mk r1 calls =>
        have hcalls : (runLoop search kws p rest).2 = calls := by rw [hr]
        cases r1 with
        | error m =>
          rw [runLoop_cons_tail_error hf hr] at h
          simp at h
          rcases h with h | h
          · exact ⟨e, by simp, h⟩
          · obtain ⟨e2, he2, hq⟩ := ih (by rw [hcalls]; exact h)
            exact ⟨e2, by simp [he2], hq⟩
        | ok o2 =>
          obtain ⟨rows2, log2⟩ := o2
          rw [runLoop_cons_ok hf hr] at h
          simp at h
          rcases h with h | h
          · exact ⟨e, by simp, h⟩
          · obtain ⟨e2, he2, hq⟩ := ih (by rw [hcalls]; exact h)
            exact ⟨e2, by simp [he2], hq⟩

/-- A run in which some entity's search succeeds with a null-source article
never completes. -/
theorem runLoop_not_ok_of_null (search : Request → Except String (List Article))
    (kws : List String) (p : Params) (es : List String) (e : String)
    (a : Article) (he : e ∈ es) (ha : a ∈ (search_entity e search kws p).1)
    (hn : a.source = SourceVal.null) :
    ∀ out, (runLoop search kws p es).1 ≠ Except.ok out := by
  induction es with
  | nil => cases he
  | cons e1 rest ih =>
    intro out
    rcases List.mem_cons.mp he with h1 | h1
    · obtain ⟨m, hm⟩ := flattenAll_error_of_null e1
        (search_entity e1 search kws p).1 a (h1 ▸ ha) hn
      rw [runLoop_cons_flat_error hm]
      simp
    · cases hf : flattenAll e1 (search_entity e1 search kws p).1 with
      | error m => rw [runLoop_cons_flat_error hf]; simp
      | ok rows =>
        cases hr : runLoop search kws p rest with
        | mk r1 calls =>
          cases r1 with
          | error m => rw [runLoop_cons_tail_error hf hr]; simp
          | ok o2 =>
            obtain ⟨rows2, log2⟩ := o2
            exact absurd (by rw [hr]) (ih h1 (rows2, log2))

/-- Every line-boundary character is whitespace for `str.strip()`. -/
theorem pyIsSpace_of_isLineBreak (c : Char) (h : isLineBreak c = true) :
    pyIsSpace c = true := by
  simp only [isLineBreak, Bool.or_eq_true, decide_eq_true_eq] at h
  rcases h with ((((((((h | h) | h) | h) | h) | h) | h) | h) | h) | h <;>
    subst h <;> decide

/-- A string strips to empty exactly when all its characters are
whitespace. -/
theorem pyStrip_eq_empty_iff (s : String) :
    pyStrip s = "" ↔ ∀ c ∈ s.data, pyIsSpace c := by
  constructor
  · intro h c hc
    have h2 : ((s.data.dropWhile pyIsSpace).reverse.dropWhile pyIsSpace).reverse = [] := by
      have h3 := congrArg String.data h
      simpa [pyStrip] using h3
    rw [List.reverse_eq_nil_iff, List.dropWhile_eq_nil_iff] at h2
    have hdrop : ∀ x ∈ s.data.dropWhile pyIsSpace, pyIsSpace x := by
      intro x hx
      exact h2 x (List.mem_reverse.mpr hx)
    have hsplit := List.takeWhile_append_dropWhile (p := pyIsSpace) (l := s.data)
    rw [← hsplit] at hc
    rcases List.mem_append.mp hc with h4 | h4
    · exact List.mem_takeWhile_imp h4
    · exact hdrop c h4
  · intro h
    have h1 : s.data.dropWhile pyIsSpace = [] := List.dropWhile_eq_nil_iff.mpr h
    simp [pyStrip, h1]

set_option maxHeartbeats 1000000 in
/-- If every line produced by the splitter from `cs` (with pending line
`acc`) is all-whitespace, then both the pending characters and the remaining
characters are all whitespace. -/
theorem pySplitlinesAux_space (cs acc : List Char)
    (h : ∀ line ∈ pySplitlinesAux cs acc, ∀ c ∈ line.data, pyIsSpace c) :
    (∀ c ∈ acc, pyIsSpace c) ∧ (∀ c ∈ cs, pyIsSpace c) := by
  induction cs, acc using pySplitlinesAux.induct with
  | case1 => exact ⟨by simp, by simp⟩
  | case2 acc hne =>
    rw [pySplitlinesAux.eq_2 acc hne] at h
    have hl := h (String.mk acc.reverse) (by simp)
    exact ⟨fun d hd => hl d (List.mem_reverse.mpr hd), by simp⟩
  | case3 rest acc ih =>
    rw [pySplitlinesAux.eq_3] at h
    have hl := h (String.mk acc.reverse) (by simp)
    have hrest := ih (fun line h2 => h line (by simp [h2]))
    refine ⟨fun d hd => hl d (List.mem_reverse.mpr hd), fun d hd => ?_⟩
    rcases List.mem_cons.mp hd with h1 | h1
    · subst h1; decide
    rcases List.mem_cons.mp h1 with h2 | h2
    · subst h2; decide
    · exact hrest.2 d h2
  | case4 c rest acc hne hbr ih =>
    rw [pySplitlinesAux.eq_4 acc c rest hne, if_pos hbr] at h
    have hl := h (String.mk acc.reverse) (by simp)
    have hrest := ih (fun line h2 => h line (by simp [h2]))
    refine ⟨fun d hd => hl d (List.mem_reverse.mpr hd), fun d hd => ?_⟩
    rcases List.mem_cons.mp hd with h1 | h1
    · subst h1; exact pyIsSpace_of_isLineBreak d hbr
    · exact hrest.2 d h1
  | case5 c rest acc hne hnbr ih =>
    rw [pySplitlinesAux.eq_4 acc c rest hne, if_neg hnbr] at h
    have hrec := ih h
    refine ⟨fun d hd => hrec.1 d (by simp [hd]), fun d hd => ?_⟩
    rcases List.mem_cons.mp hd with h1 | h1
    · subst h1; exact hrec.1 d (by simp)
    · exact hrec.2 d h1

/-- If every line of a string strips to empty, the whole string strips to
empty: the line boundaries themselves are whitespace. -/
theorem pyStrip_empty_of_lines (s : String)
    (h : ∀ line ∈ pySplitlines s, pyStrip line = "") :
    pyStrip s = "" := by
  apply (pyStrip_eq_empty_iff s).mpr
  exact (pySplitlinesAux_space s.data []
    (fun line hl => (pyStrip_eq_empty_iff line).mp (h line hl))).2

/-- If parsing yields no entity, the whole input strips to empty, so the
second input guard fires. -/
theorem pyStrip_empty_of_parseEntities_nil (s : String)
    (h : parseEntities s = []) : pyStrip s = "" := by
  apply pyStrip_empty_of_lines
  intro line hl
  by_contra hne
  have hmem : pyStrip line ∈ parseEntities s := by
    unfold parseEntities
    exact List.mem_map_of_mem _ (List.mem_filter.mpr ⟨hl, by simpa using hne⟩)
  rw [h] at hmem
  cases hmem

/-- When both input guards pass, the run surface issues exactly the requests
the main loop issues. -/
theorem runSearch_calls_pass (api_key names_input custom_kw : String)
    (p : Params) (search : Request → Except String (List Article))
    (h1 : api_key ≠ "") (h2 : pyStrip names_input ≠ "") :
    (runSearch api_key names_input custom_kw p search).2 =
      (runLoop search (negKeywords custom_kw) p (parseEntities names_input)).2 := by
  unfold runSearch
  rw [if_neg h1, if_neg h2]
  cases hr : runLoop search (negKeywords custom_kw) p (parseEntities names_input) with
  | mk r1 calls =>
    cases r1 with
    | error m => rfl
    | ok o => rfl

/-- When both input guards pass and the run surface completes, the main loop
completed with the same outcome. -/
theorem runSearch_ok_pass (api_key names_input custom_kw : String)
    (p : Params) (search : Request → Except String (List Article))
    (out : List Row × List String)
    (h1 : api_key ≠ "") (h2 : pyStrip names_input ≠ "")
    (h : (runSearch api_key names_input custom_kw p search).1 = Except.ok out) :
    (runLoop search (negKeywords custom_kw) p (parseEntities names_input)).1 =
      Except.ok out := by
  unfold runSearch at h
  rw [if_neg h1, if_neg h2] at h
  cases hr : runLoop search (negKeywords custom_kw) p (parseEntities names_input) with
  | mk r1 calls =>
    rw [hr] at h
    cases r1 with
    | error m => cases h
    | ok o => simpa using h

/-! ### The claims -/

/-- C2: for every non-empty entity string and every non-empty keyword
sequence kw1..kwN, build_query returns exactly the string
"<entity>" AND (kw1 OR ... OR kwN) — a double quote, the entity verbatim, a
double quote, then the keywords verbatim in the given order joined by the
literal token " OR ". -/
theorem spec_C2 (entity : String) (k : String) (ks : List String)
    (h : entity ≠ "") :
    build_query entity (k :: ks) =
      "\"" ++ entity ++ "\" AND (" ++
        ks.foldl (fun acc kw => acc ++ " OR " ++ kw) k ++ ")" := by
  unfold build_query
  rw [intercalate_eq_foldl]

/-- C2 witness: the theorem applied to a concrete entity and keyword list. -/
theorem spec_C2_witness :
    ("Acme LLC" : String) ≠ "" ∧
    build_query "Acme LLC" ("scam" :: ["fraud", "lawsuit"]) =
      "\"" ++ "Acme LLC" ++ "\" AND (" ++
        ["fraud", "lawsuit"].foldl (fun acc kw => acc ++ " OR " ++ kw) "scam" ++ ")" :=
  ⟨by decide, spec_C2 "Acme LLC" "scam" ["fraud", "lawsuit"] (by decide)⟩

/-- C10: build_query is total on an empty keyword sequence: for every
non-empty entity it returns "<entity>" AND () rather than failing. -/
theorem spec_C10 (entity : String) (h : entity ≠ "") :
    build_query entity [] = "\"" ++ entity ++ "\" AND ()" := by
  have h2 : ∀ x : String, ((x ++ "\" AND (") ++ "") ++ ")" = x ++ "\" AND ()" := by
    intro x
    rw [String.append_empty, String.append_assoc]
    exact congrArg (fun t => x ++ t) (by decide)
  exact h2 ("\"" ++ entity)

/-- C10 witness: the theorem applied to a concrete entity. -/
theorem spec_C10_witness :
    ("X" : String) ≠ "" ∧ build_query "X" [] = "\"" ++ "X" ++ "\" AND ()" :=
  ⟨by decide, spec_C10 "X" (by decide)⟩

/-- C3: the built-in keyword list does cover fraud/scam, legal/financial
distress and reputational terms as separate entries, but the
business-closure terms are not separate entries: the commas missing after
"penalty", "closed", "shut down", "out of business" and "stole" merged them
with "not answering" into one 14th entry, so no separate entry for any
business-closure term exists. -/
theorem spec_C3 :
    "scam" ∈ DEFAULT_NEGATIVE_KEYWORDS ∧
    "fraud" ∈ DEFAULT_NEGATIVE_KEYWORDS ∧
    "lawsuit" ∈ DEFAULT_NEGATIVE_KEYWORDS ∧
    "bankruptcy" ∈ DEFAULT_NEGATIVE_KEYWORDS ∧
    "court filing" ∈ DEFAULT_NEGATIVE_KEYWORDS ∧
    "fine" ∈ DEFAULT_NEGATIVE_KEYWORDS ∧
    "complaint" ∈ DEFAULT_NEGATIVE_KEYWORDS ∧
    "bad review" ∈ DEFAULT_NEGATIVE_KEYWORDS ∧
    "negative review" ∈ DEFAULT_NEGATIVE_KEYWORDS ∧
    "shut down" ∉ DEFAULT_NEGATIVE_KEYWORDS ∧
    "out of business" ∉ DEFAULT_NEGATIVE_KEYWORDS ∧
    "stole" ∉ DEFAULT_NEGATIVE_KEYWORDS ∧
    "closed" ∉ DEFAULT_NEGATIVE_KEYWORDS ∧
    "penalty" ∉ DEFAULT_NEGATIVE_KEYWORDS ∧
    "unresponsive" ∉ DEFAULT_NEGATIVE_KEYWORDS ∧
    "not answering" ∉ DEFAULT_NEGATIVE_KEYWORDS ∧
    "penaltyclosedshut downout of businessstolenot answering" ∈ DEFAULT_NEGATIVE_KEYWORDS ∧
    DEFAULT_NEGATIVE_KEYWORDS.length = 14 := by
  decide

/-- C5 counterexample to the claim as stated: a record whose publishedAt
value is present but empty yields a null Published field, not the first 10
characters of the present value, which would be some "". -/
theorem spec_C5_counterexample :
    flattenArticle "e"
        { title := none, source := SourceVal.absent,
          publishedAt := PubVal.str "", url := none } =
      Except.ok { entity := "e", title := none, source := none,
                  published := none, url := none } ∧
    some (("" : String).take 10) ≠ (none : Option String) :=
  ⟨rfl, by decide⟩

/-- C5 (amended): the produced Result Row's Published field is the first 10
characters of the record's publishedAt value when that value is present and
non-empty — in particular exactly 10 characters whenever the value has at
least 10 — and null when publishedAt is absent, null, or the empty
string. -/
theorem spec_C5 (entity : String) (a : Article) (r : Row)
    (h : flattenArticle entity a = Except.ok r) :
    (∀ s, a.publishedAt = PubVal.str s → s ≠ "" → r.published = some (s.take 10)) ∧
    ((a.publishedAt = PubVal.absent ∨ a.publishedAt = PubVal.null ∨
        a.publishedAt = PubVal.str "") → r.published = none) ∧
    (∀ s, a.publishedAt = PubVal.str s → 10 ≤ s.length →
      ∃ t, r.published = some t ∧ t.length = 10) := by
  have hr : r.published = publishedField a.publishedAt := by
    unfold flattenArticle at h
    cases hs : getSourceName a.source with
    | error m => rw [hs] at h; cases h
    | ok src => rw [hs] at h; cases h; rfl
  refine ⟨?_, ?_, ?_⟩
  · intro s hs hne
    rw [hr, hs]
    simp [publishedField, hne]
  · intro hcase
    rcases hcase with hc | hc | hc <;> rw [hr, hc] <;> simp [publishedField]
  · intro s hs h10
    have hne : s ≠ "" := fun he => absurd (he ▸ h10) (by decide)
    refine ⟨s.take 10, ?_, strTake_length_ten s h10⟩
    rw [hr, hs]
    simp [publishedField, hne]

/-- C5 witness: the amended theorem applied to the specification's concrete
Article Record, whose 20-character timestamp is truncated to
"2024-03-01". -/
theorem spec_C5_witness :
    flattenArticle "e" wArticle = Except.ok wRow ∧
    wRow.published = some (("2024-03-01T12:00:00Z" : String).take 10) :=
  ⟨rfl, (spec_C5 "e" wArticle wRow rfl).1 "2024-03-01T12:00:00Z" rfl (by decide)⟩

/-- C9: a record whose "source" key is present but bound to null makes the
row flattening raise an AttributeError instead of producing a Result Row —
the default-to-empty-dict lookup applies only when the key is entirely
absent, which is tolerated — and such a record aborts the whole run. -/
theorem spec_C9 (entity : String) (a : Article) (h : a.source = SourceVal.null) :
    flattenArticle entity a = Except.error "AttributeError" ∧
    (∀ r, flattenArticle entity a ≠ Except.ok r) ∧
    (∀ (t u : Option String) (pub : PubVal), ∃ r,
      flattenArticle entity
          { title := t, source := SourceVal.absent, publishedAt := pub, url := u } =
        Except.ok r ∧ r.source = none) ∧
    (∀ (search : Request → Except String (List Article)) (kws : List String)
        (p : Params) (es : List String) (arts : List Article)
        (out : List Row × List String),
      entity ∈ es → search (searchRequest entity kws p) = Except.ok arts →
      a ∈ arts → (runLoop search kws p es).1 ≠ Except.ok out) := by
  refine ⟨flattenArticle_null entity a h, ?_, ?_, ?_⟩
  · intro r hr
    rw [flattenArticle_null entity a h] at hr
    cases hr
  · intro t u pub
    refine ⟨flattenRow entity ⟨t, SourceVal.absent, pub, u⟩,
      flattenArticle_ok entity _ (by simp), rfl⟩
  · intro search kws p es arts out hes hsearch ha
    have ha2 : a ∈ (search_entity entity search kws p).1 := by
      rw [search_entity_ok entity search kws p arts hsearch]
      exact ha
    exact runLoop_not_ok_of_null search kws p es entity a hes ha2 h out

/-- C9 witness: the theorem applied to the concrete null-source record and a
concrete one-entity run returning it. -/
theorem spec_C9_witness :
    wNullSourceArticle.source = SourceVal.null ∧
    flattenArticle "e" wNullSourceArticle = Except.error "AttributeError" ∧
    (runLoop wSearchNull ["kw"] wParams ["e"]).1 ≠
      Except.ok (([] : List Row), ([] : List String)) :=
  ⟨rfl, (spec_C9 "e" wNullSourceArticle rfl).1,
    (spec_C9 "e" wNullSourceArticle rfl).2.2.2 wSearchNull ["kw"] wParams ["e"]
      [wNullSourceArticle] ([], []) (by decide) rfl (by decide)⟩

/-- C1: if the search capability raises for entity E and succeeds with
spec-conformant records for every other entity, the run still completes: E
contributes zero rows, the rows are the concatenation in entity order of the
per-entity flattened batches, the failure report contains the entity and the
error detail, and one request is still issued for every entity. -/
theorem spec_C1 (search : Request → Except String (List Article))
    (kws : List String) (p : Params) (es : List String) (E err : String)
    (hE : E ∈ es)
    (hfail : search (searchRequest E kws p) = Except.error err)
    (hok : ∀ e ∈ es, e ≠ E →
      ∃ arts, search (searchRequest e kws p) = Except.ok arts ∧
        ∀ a ∈ arts, a.source ≠ SourceVal.null) :
    ∃ rows log,
      (runLoop search kws p es).1 = Except.ok (rows, log) ∧
      (∀ r ∈ rows, r.entity ≠ E) ∧
      rows = es.flatMap (fun e => ((search_entity e search kws p).1).map (flattenRow e)) ∧
      ("Error querying NewsAPI for " ++ E ++ ": " ++ err) ∈ log ∧
      (runLoop search kws p es).2 = es.map (fun e => searchRequest e kws p) := by
  have hnull : ∀ e ∈ es, ∀ a ∈ (search_entity e search kws p).1,
      a.source ≠ SourceVal.null := by
    intro e he a ha
    by_cases heE : e = E
    · subst heE
      rw [search_entity_error e search kws p err hfail] at ha
      cases ha
    · obtain ⟨arts, hs, hgood⟩ := hok e he heE
      rw [search_entity_ok e search kws p arts hs] at ha
      exact hgood a ha
  have hmain := runLoop_ok_eq search kws p es hnull
  refine ⟨_, _, by rw [hmain], ?_, rfl, ?_, by rw [hmain]⟩
  · intro r hr
    obtain ⟨e, he, hr2⟩ := List.mem_flatMap.mp hr
    obtain ⟨a, ha, hra⟩ := List.mem_map.mp hr2
    rw [← hra, flattenRow_entity]
    intro heE
    subst heE
    rw [search_entity_error e search kws p err hfail] at ha
    cases ha
  · refine List.mem_flatMap.mpr ⟨E, hE, ?_⟩
    rw [search_entity_error E search kws p err hfail]
    simp

/-- C1 witness: a two-entity run where the search raises for "bad" and
returns one article for "good". -/
theorem spec_C1_witness :
    ("bad" : String) ∈ ["good", "bad"] ∧
    wSearchMixed (searchRequest "bad" ["kw"] wParams) = Except.error "boom" ∧
    (∃ rows log,
      (runLoop wSearchMixed ["kw"] wParams ["good", "bad"]).1 = Except.ok (rows, log) ∧
      (∀ r ∈ rows, r.entity ≠ "bad") ∧
      rows = ["good", "bad"].flatMap
        (fun e => ((search_entity e wSearchMixed ["kw"] wParams).1).map (flattenRow e)) ∧
      ("Error querying NewsAPI for " ++ "bad" ++ ": " ++ "boom") ∈ log ∧
      (runLoop wSearchMixed ["kw"] wParams ["good", "bad"]).2 =
        ["good", "bad"].map (fun e => searchRequest e ["kw"] wParams)) :=
  ⟨by decide, rfl,
    spec_C1 wSearchMixed ["kw"] wParams ["good", "bad"] "bad" "boom"
      (by decide) rfl
      (by
        intro e he hne
        refine ⟨[wArticle], ?_, by decide⟩
        fin_cases he
        · rfl
        · exact absurd rfl hne)⟩

/-- C4: on a run whose returned records are spec-conformant, the aggregated
output is the concatenation, in entity input order, of each entity's
flattened rows in response order; every row's Entity field is an input
entity, the total row count is the sum over entities of the number of
articles obtained for that entity's query, and an entity whose search
succeeds — even with zero articles — contributes no failure report. -/
theorem spec_C4 (search : Request → Except String (List Article))
    (kws : List String) (p : Params) (es : List String)
    (hsrc : ∀ e ∈ es, ∀ a ∈ (search_entity e search kws p).1,
      a.source ≠ SourceVal.null) :
    ∃ rows log,
      (runLoop search kws p es).1 = Except.ok (rows, log) ∧
      rows = es.flatMap (fun e => ((search_entity e search kws p).1).map (flattenRow e)) ∧
      (∀ r ∈ rows, r.entity ∈ es) ∧
      rows.length =
        (es.map (fun e => ((search_entity e search kws p).1).length)).sum ∧
      (∀ e ∈ es, ∀ arts, search (searchRequest e kws p) = Except.ok arts →
        search_entity e search kws p = (arts, ([] : List String))) := by
  have hmain := runLoop_ok_eq search kws p es hsrc
  refine ⟨_, _, by rw [hmain], rfl, ?_, ?_, ?_⟩
  · intro r hr
    obtain ⟨e, he, hr2⟩ := List.mem_flatMap.mp hr
    obtain ⟨a, ha, hra⟩ := List.mem_map.mp hr2
    rw [← hra, flattenRow_entity]
    exact he
  · simp [List.flatMap, List.length_flatten, List.map_map, Function.comp_def,
      List.length_map]
  · intro e he arts hs
    exact search_entity_ok e search kws p arts hs

/-- C4 witness: a two-entity run in which the first entity yields one
article and the second zero, matching the specification's concrete
scenario. -/
theorem spec_C4_witness :
    (∀ e ∈ ["a@x.com", "Acme LLC"],
      ∀ a ∈ (search_entity e wSearchOneThenNone ["kw"] wParams).1,
        a.source ≠ SourceVal.null) ∧
    (∃ rows log,
      (runLoop wSearchOneThenNone ["kw"] wParams ["a@x.com", "Acme LLC"]).1 =
        Except.ok (rows, log) ∧
      rows = ["a@x.com", "Acme LLC"].flatMap
        (fun e => ((search_entity e wSearchOneThenNone ["kw"] wParams).1).map (flattenRow e)) ∧
      (∀ r ∈ rows, r.entity ∈ ["a@x.com", "Acme LLC"]) ∧
      rows.length = (["a@x.com", "Acme LLC"].map
        (fun e => ((search_entity e wSearchOneThenNone ["kw"] wParams).1).length)).sum ∧
      (∀ e ∈ ["a@x.com", "Acme LLC"], ∀ arts,
        wSearchOneThenNone (searchRequest e ["kw"] wParams) = Except.ok arts →
        search_entity e wSearchOneThenNone ["kw"] wParams =
          (arts, ([] : List String)))) :=
  ⟨by decide,
    spec_C4 wSearchOneThenNone ["kw"] wParams ["a@x.com", "Acme LLC"] (by decide)⟩

/-- C6: every request the run surface issues carries exactly the documented
parameters: the query built by build_query for one of the parsed entities,
the from-date now minus lookback-years times 365 days rendered as
YYYY-MM-DD, language "en", sort order "relevancy", and page size
min(requested max results, 100). -/
theorem spec_C6 (api_key names_input custom_kw : String) (p : Params)
    (search : Request → Except String (List Article)) (req : Request)
    (h : req ∈ (runSearch api_key names_input custom_kw p search).2) :
    ∃ e, e ∈ parseEntities names_input ∧
      req = searchRequest e (negKeywords custom_kw) p ∧
      req.q = build_query e (negKeywords custom_kw) ∧
      req.from_param = fmtYMD (p.now_days - p.lookback_years * 365) ∧
      req.language = "en" ∧
      req.sort_by = "relevancy" ∧
      req.page_size = min p.results_limit 100 := by
  have h2 : req ∈
      (runLoop search (negKeywords custom_kw) p (parseEntities names_input)).2 := by
    by_cases h1 : api_key = ""
    · unfold runSearch at h
      rw [if_pos h1] at h
      cases h
    · by_cases hstrip : pyStrip names_input = ""
      · unfold runSearch at h
        rw [if_neg h1, if_pos hstrip] at h
        cases h
      · rw [runSearch_calls_pass api_key names_input custom_kw p search h1 hstrip] at h
        exact h
  obtain ⟨e, he, heq⟩ :=
    runLoop_calls_mem search (negKeywords custom_kw) p (parseEntities names_input) req h2
  subst heq
  exact ⟨e, he, rfl, rfl, rfl, rfl, rfl, rfl⟩

/-- C6 witness: the theorem applied to the one request of a concrete
one-entity run. -/
theorem spec_C6_witness :
    searchRequest "a" (negKeywords "") wParams ∈
      (runSearch "key" "a" "" wParams wSearchEmpty).2 ∧
    (∃ e, e ∈ parseEntities "a" ∧
      searchRequest "a" (negKeywords "") wParams = searchRequest e (negKeywords "") wParams ∧
      (searchRequest "a" (negKeywords "") wParams).q = build_query e (negKeywords "") ∧
      (searchRequest "a" (negKeywords "") wParams).from_param =
        fmtYMD (wParams.now_days - wParams.lookback_years * 365) ∧
      (searchRequest "a" (negKeywords "") wParams).language = "en" ∧
      (searchRequest "a" (negKeywords "") wParams).sort_by = "relevancy" ∧
      (searchRequest "a" (negKeywords "") wParams).page_size =
        min wParams.results_limit 100) := by
  have hmem : searchRequest "a" (negKeywords "") wParams ∈
      (runSearch "key" "a" "" wParams wSearchEmpty).2 := by
    have he : (runSearch "key" "a" "" wParams wSearchEmpty).2 =
        [searchRequest "a" (negKeywords "") wParams] := rfl
    rw [he]
    exact List.mem_singleton.mpr rfl
  exact ⟨hmem, spec_C6 "key" "a" "" wParams wSearchEmpty _ hmem⟩

/-- C7: on a completed run, one search invocation is made per parsed entity
in order — the invocation count equals the number of input lines that are
non-blank after stripping, with each duplicate occurrence invoking its own
search. -/
theorem spec_C7 (api_key names_input custom_kw : String) (p : Params)
    (search : Request → Except String (List Article))
    (out : List Row × List String)
    (h : (runSearch api_key names_input custom_kw p search).1 = Except.ok out) :
    (runSearch api_key names_input custom_kw p search).2 =
      (parseEntities names_input).map
        (fun e => searchRequest e (negKeywords custom_kw) p) ∧
    (runSearch api_key names_input custom_kw p search).2.length =
      ((pySplitlines names_input).filter (fun n => pyStrip n ≠ "")).length := by
  by_cases h1 : api_key = ""
  · unfold runSearch at h
    rw [if_pos h1] at h
    cases h
  by_cases hstrip : pyStrip names_input = ""
  · unfold runSearch at h
    rw [if_neg h1, if_pos hstrip] at h
    cases h
  have hloop := runSearch_ok_pass api_key names_input custom_kw p search out h1 hstrip h
  have hcalls := runLoop_calls_of_ok search (negKeywords custom_kw) p
    (parseEntities names_input) out hloop
  have hpass := runSearch_calls_pass api_key names_input custom_kw p search h1 hstrip
  constructor
  · rw [hpass, hcalls]
  · rw [hpass, hcalls, List.length_map]
    unfold parseEntities
    rw [List.length_map]

/-- C7 witness: the theorem applied to a concrete three-entity input with a
duplicate and a blank line. -/
theorem spec_C7_witness :
    (runSearch "key" " a \n\nb\na " "" wParams wSearchEmpty).1 =
      Except.ok (([] : List Row), ([] : List String)) ∧
    ((runSearch "key" " a \n\nb\na " "" wParams wSearchEmpty).2 =
      (parseEntities " a \n\nb\na ").map
        (fun e => searchRequest e (negKeywords "") wParams) ∧
     (runSearch "key" " a \n\nb\na " "" wParams wSearchEmpty).2.length =
      ((pySplitlines " a \n\nb\na ").filter (fun n => pyStrip n ≠ "")).length) :=
  ⟨rfl, spec_C7 "key" " a \n\nb\na " "" wParams wSearchEmpty ([], []) rfl⟩

/-- C8: if the credential is empty or the parsed entity list is empty, the
run fails with the corresponding input error and no search invocation
occurs at all. -/
theorem spec_C8 (api_key names_input custom_kw : String) (p : Params)
    (search : Request → Except String (List Article))
    (h : api_key = "" ∨ parseEntities names_input = []) :
    ((runSearch api_key names_input custom_kw p search).1 =
        Except.error RunError.emptyApiKey ∨
     (runSearch api_key names_input custom_kw p search).1 =
        Except.error RunError.emptyEntityList) ∧
    (runSearch api_key names_input custom_kw p search).2 = [] := by
  by_cases h1 : api_key = ""
  · unfold runSearch
    rw [if_pos h1]
    exact ⟨Or.inl rfl, rfl⟩
  · rcases h with h | h
    · exact absurd h h1
    · have h2 := pyStrip_empty_of_parseEntities_nil names_input h
      unfold runSearch
      rw [if_neg h1, if_pos h2]
      exact ⟨Or.inr rfl, rfl⟩

/-- C8 witness: the theorem applied to a whitespace-only entity input. -/
theorem spec_C8_witness :
    (("k" : String) = "" ∨ parseEntities " \t \n " = []) ∧
    (((runSearch "k" " \t \n " "" wParams wSearchEmpty).1 =
        Except.error RunError.emptyApiKey ∨
      (runSearch "k" " \t \n " "" wParams wSearchEmpty).1 =
        Except.error RunError.emptyEntityList) ∧
     (runSearch "k" " \t \n " "" wParams wSearchEmpty).2 = []) :=
  ⟨Or.inr (by decide),
    spec_C8 "k" " \t \n " "" wParams wSearchEmpty (Or.inr (by decide))⟩

end NegNews
